import Mathlib

/-!
Shallow embedding of the Moment Festival backend (`backend/server.py`).

The service is a FastAPI application over a MongoDB document store with three
collections (`festivals`, `dj_profiles`, `ticket_reservations`).  We model the
store as three Lean lists, a Mongo `find_one {field: v}` as `List.find?` on
that field, `insert_one` as appending to the list, and `find().to_list(1000)`
as `List.take 1000`.  Pydantic's `default_factory` side effects (fresh
`uuid.uuid4()` ids and `datetime.utcnow()` timestamps) are modelled by an
explicit environment `Env` supplying the k-th generated id and timestamp of a
handler invocation.  `HTTPException(status_code=..., detail=...)` raised by a
handler is an `Except.error`.
-/

/-- JSON-like values, for the unstructured `dict` payload fields of the
Python models (`venue_info`, `philosophy`, `timeline` entries, ...). -/
inductive JVal where
  | s : String → JVal
  | i : Int → JVal
  | arr : List JVal → JVal
  | obj : List (String × JVal) → JVal

/-- One entry of a festival's `ticket_info` dict: in the seed payload each
value is a dict `{"price": ..., "description": ...}`. -/
structure TicketTier where
  price : Int
  description : String
deriving Repr, DecidableEq

/-- `class Festival(BaseModel)` from `server.py`.  `id` and `created_at` are
generated at construction time (uuid4 / utcnow), modelled as plain fields
filled in by the caller from the `Env`. -/
structure Festival where
  id : String
  name : String
  year : Int
  location : String
  date : String
  description : String
  venue_info : List (String × JVal)
  sound_system : List (String × String)
  family_services : List (List (String × String))
  ticket_info : List (String × TicketTier)
  created_at : Nat

/-- `class DJProfile(BaseModel)` from `server.py`. -/
structure DJProfile where
  id : String
  name : String
  stage_name : String
  location : String
  music_styles : List String
  career_start : Int
  bio : String
  philosophy : List (String × JVal)
  timeline : List JVal
  social_links : List (String × String)
  created_at : Nat

/-- `class TicketReservation(BaseModel)` from `server.py`; `status` defaults
to `"pending"`. -/
structure TicketReservation where
  id : String
  festival_id : String
  name : String
  email : String
  phone : String
  ticket_type : String
  quantity : Int
  total_price : Int
  status : String := "pending"
  created_at : Nat
deriving Repr, DecidableEq

/-- `class NFTMoment(BaseModel)` from `server.py`.  The `attributes` dict of
every constructed record maps strings to strings. -/
structure NFTMoment where
  id : String
  title : String
  description : String
  image_base64 : String
  moment_timestamp : String
  rarity : String
  attributes : List (String × String)
  created_at : Nat
deriving Repr, DecidableEq

/-- `class TicketReservationCreate(BaseModel)`: the request body of
`POST /api/ticket-reservation`.  Note it has no price field. -/
structure TicketReservationCreate where
  festival_id : String
  name : String
  email : String
  phone : String
  ticket_type : String
  quantity : Int
deriving Repr, DecidableEq

/-- The document store: the three MongoDB collections the service touches. -/
structure Store where
  festivals : List Festival
  dj_profiles : List DJProfile
  ticket_reservations : List TicketReservation

/-- `HTTPException(status_code=..., detail=...)`. -/
structure HTTPException where
  status_code : Nat
  detail : String
deriving Repr, DecidableEq

/-- Generation environment for one handler invocation: `freshId k` is the
k-th `uuid.uuid4()` drawn, `now k` the k-th `datetime.utcnow()` reading. -/
structure Env where
  freshId : Nat → String
  now : Nat → Nat

/-- `GET /api/festivals`: `db.festivals.find().to_list(1000)` returns at most
the first 1000 documents of the collection; the handler re-validates each as
a `Festival` (identity here) and returns the list.  The store is not
mutated. -/
def get_festivals (s : Store) : List Festival × Store :=
  (s.festivals.take 1000, s)

/-- `GET /api/festivals/{festival_id}`: `find_one({"id": festival_id})`,
404 `"Festival not found"` when absent. -/
def get_festival (s : Store) (festival_id : String) :
    Except HTTPException Festival × Store :=
  match s.festivals.find? (fun f => f.id == festival_id) with
  | some festival => (Except.ok festival, s)
  | none => (Except.error ⟨404, "Festival not found"⟩, s)

/-- `GET /api/dj-profile`: `find_one({"stage_name": "DJ Senoh"})`,
404 `"DJ Profile not found"` when absent. -/
def get_dj_profile (s : Store) : Except HTTPException DJProfile × Store :=
  match s.dj_profiles.find? (fun d => d.stage_name == "DJ Senoh") with
  | some dj => (Except.ok dj, s)
  | none => (Except.error ⟨404, "DJ Profile not found"⟩, s)

/-- The literal `ticket_prices` dict of `create_ticket_reservation`. -/
def ticket_prices : List (String × Int) :=
  [("early_bird", 15000), ("regular", 18000), ("vip", 35000), ("family", 40000)]

/-- `POST /api/ticket-reservation` (`create_ticket_reservation`):
validate the festival exists (else 404 `"Festival not found"`), compute
`total_price = ticket_prices.get(ticket_type, 18000) * quantity` server-side,
build the reservation (fresh id, default status `"pending"`), insert it into
`ticket_reservations` and return it. -/
def create_ticket_reservation (env : Env) (s : Store)
    (reservation_data : TicketReservationCreate) :
    Except HTTPException TicketReservation × Store :=
  match s.festivals.find? (fun f => f.id == reservation_data.festival_id) with
  | none => (Except.error ⟨404, "Festival not found"⟩, s)
  | some _festival =>
    let total_price :=
      ((ticket_prices.lookup reservation_data.ticket_type).getD 18000)
        * reservation_data.quantity
    let reservation : TicketReservation :=
      { id := env.freshId 0
        festival_id := reservation_data.festival_id
        name := reservation_data.name
        email := reservation_data.email
        phone := reservation_data.phone
        ticket_type := reservation_data.ticket_type
        quantity := reservation_data.quantity
        total_price := total_price
        created_at := env.now 0 }
    (Except.ok reservation,
      { s with ticket_reservations := s.ticket_reservations ++ [reservation] })

/-- Spec-side price table (from the spec's words, for comparison against the
code's `ticket_prices` lookup): early_bird 15000, regular 18000, vip 35000,
family 40000, any other ticket type falls back to 18000. -/
def specUnitPrice (t : String) : Int :=
  if t = "early_bird" then 15000
  else if t = "regular" then 18000
  else if t = "vip" then 35000
  else if t = "family" then 40000
  else 18000


/-- The `sample_festival` payload constructed by `startup_event` when no
festival named "Moment Festival" exists; it draws the invocation's 0-th
fresh id and timestamp. -/
def sample_festival (env : Env) : Festival :=
  { id := env.freshId 0
    name := "Moment Festival"
    year := 2025
    location := "奈良県天川村 フォレスト・イン洞川"
    date := "2025年7月26日-27日"
    description := "自然と電子音楽が織りなす至福の瞬間。『今、この瞬間』へピントを合わせる音楽体験。"
    venue_info :=
      [("name", JVal.s "フォレスト・イン洞川"),
       ("address", JVal.s "奈良県天川村"),
       ("features", JVal.arr [JVal.s "神聖な自然環境", JVal.s "温泉街",
          JVal.s "キャンプ場", JVal.s "清流"]),
       ("access", JVal.s "関西からアクセス良好な秘境の地")]
    sound_system :=
      [("primary", "Alcons Audio"),
       ("secondary", "Function One"),
       ("description", "プロ仕様ラインアレイスピーカーによる圧倒的な音質体験")]
    family_services :=
      [[("name", "キッズエリア"), ("description", "安全に配慮した専用エリア"),
        ("icon", "👶")],
       [("name", "こどもごはん"), ("description", "栄養バランスを考慮したメニュー"),
        ("icon", "🍱")],
       [("name", "保育士常駐"), ("description", "資格を持つスタッフが常駐"),
        ("icon", "👩‍⚕️")],
       [("name", "ワークショップ"), ("description", "多彩なアクティビティ"),
        ("icon", "🎨")]]
    ticket_info :=
      [("early_bird", { price := 15000, description := "早割チケット" }),
       ("regular", { price := 18000, description := "一般チケット" }),
       ("vip", { price := 35000, description := "VIP体験チケット" }),
       ("family", { price := 40000, description := "ファミリーパック(大人2名+子供2名)" })]
    created_at := env.now 0 }

/-- The `sample_dj` payload constructed by `startup_event` when no profile
with stage name "DJ Senoh" exists; it draws the invocation's 1st fresh id
and timestamp. -/
def sample_dj (env : Env) : DJProfile :=
  { id := env.freshId 1
    name := "Mike Senoh"
    stage_name := "DJ Senoh"
    location := "大阪"
    music_styles := ["Psytrance", "Techno", "Electronic Music"]
    career_start := 2004
    bio := "関西〜全国へとその場の空気感を大切にしたプレイが持ち味。Moment Festivalの主催者として、奈良県天川村での野外フェスティバルを成功に導き、家族も参加できる新しい形の音楽体験を提案し続けている。"
    philosophy :=
      [("meditation", JVal.obj
          [("title", JVal.s "瞑想的体験"),
           ("description", JVal.s "音楽を通じて深い集中状態へと導き、内なる平静を見つける"),
           ("icon", JVal.s "🧘")]),
       ("awareness", JVal.obj
          [("title", JVal.s "瞬間の認識"),
           ("description", JVal.s "今この瞬間の価値を意識し、時間の流れに敏感になる"),
           ("icon", JVal.s "👁️")]),
       ("permanence", JVal.obj
          [("title", JVal.s "永続的価値"),
           ("description", JVal.s "一瞬の体験をNFTとして記録し、未来へと継承する"),
           ("icon", JVal.s "♾️")])]
    timeline :=
      [JVal.obj [("year", JVal.i 2004),
         ("event", JVal.s "大阪のクラブ「exodus」オープニングでDJデビュー")],
       JVal.obj [("year", JVal.s "2004-2014"),
         ("event", JVal.s "関西クラブシーンでPsytranceからTechnoまで幅広く活動")],
       JVal.obj [("year", JVal.s "2014-2020"),
         ("event", JVal.s "全国各地のフェスティバル出演・イベント主催活動を拡大")],
       JVal.obj [("year", JVal.i 2021),
         ("event", JVal.s "Moment Festivalを奈良県天川村で初開催")],
       JVal.obj [("year", JVal.s "2021-2025"),
         ("event", JVal.s "Moment Festival拡大・音響システム強化・国際的アーティスト招聘")],
       JVal.obj [("year", JVal.s "2024-2025"),
         ("event", JVal.s "DJ活動20周年 & Moment Festival 5周年記念")]]
    social_links :=
      [("soundcloud", "@djsenoh"),
       ("facebook", "DJ Senoh Official"),
       ("instagram", "@moment_jp"),
       ("twitter", "@moment_jp")]
    created_at := env.now 1 }

/-- First block of `startup_event` from `server.py`: check-then-insert for
the seed festival, looked up by `{"name": "Moment Festival"}`.  The insert
appends to the `festivals` collection; nothing else is touched. -/
def seed_festival_step (env : Env) (s : Store) : Store :=
  match s.festivals.find? (fun f => f.name == "Moment Festival") with
  | some _existing_festival => s
  | none => { s with festivals := s.festivals ++ [sample_festival env] }

/-- Second block of `startup_event`: check-then-insert for the seed DJ
profile, looked up by `{"stage_name": "DJ Senoh"}`. -/
def seed_dj_step (env : Env) (s : Store) : Store :=
  match s.dj_profiles.find? (fun d => d.stage_name == "DJ Senoh") with
  | some _existing_dj => s
  | none => { s with dj_profiles := s.dj_profiles ++ [sample_dj env] }

/-- `startup_event` from `server.py`: the festival check-then-insert followed
by the DJ-profile check-then-insert, performed independently in sequence. -/
def startup_event (env : Env) (s : Store) : Store :=
  seed_dj_step env (seed_festival_step env s)

/-- The `mock_nfts` list built inside `get_nft_moments`: three fixed records
whose ids and timestamps are freshly generated on every call (uuid4 /
utcnow via the Pydantic field defaults), all other fields literal. -/
def mock_nfts (env : Env) : List NFTMoment :=
  [{ id := env.freshId 0
     title := "Sunrise Moment #001"
     description := "天川村の神聖な朝日とPsytranceが融合した瞬間"
     image_base64 := "data:image/svg+xml;base64,PHN2ZyB3aWR0aD0iMzAwIiBoZWlnaHQ9IjMwMCIgdmlld0JveD0iMCAwIDMwMCAzMDAiIGZpbGw9Im5vbmUiIHhtbG5zPSJodHRwOi8vd3d3LnczLm9yZy8yMDAwL3N2ZyI+CjxyZWN0IHdpZHRoPSIzMDAiIGhlaWdodD0iMzAwIiBmaWxsPSJibGFjayIvPgo8Y2lyY2xlIGN4PSIxNTAiIGN5PSIxNTAiIHI9IjUwIiBmaWxsPSJ3aGl0ZSIvPgo8dGV4dCB4PSIxNTAiIHk9IjIyMCIgZmlsbD0id2hpdGUiIHRleHQtYW5jaG9yPSJtaWRkbGUiIGZvbnQtZmFtaWx5PSJBcmlhbCIgZm9udC1zaXplPSIxOCI+U3VucmlzZSAjMDAxPC90ZXh0Pgo8L3N2Zz4K"
     moment_timestamp := "2024-07-26T06:30:00Z"
     rarity := "legendary"
     attributes := [("location", "天川村"), ("genre", "Psytrance"), ("time", "Sunrise")]
     created_at := env.now 0 },
   { id := env.freshId 1
     title := "Forest Echo #002"
     description := "森の響きと電子音の完璧な調和"
     image_base64 := "data:image/svg+xml;base64,PHN2ZyB3aWR0aD0iMzAwIiBoZWlnaHQ9IjMwMCIgdmlld0JveD0iMCAwIDMwMCAzMDAiIGZpbGw9Im5vbmUiIHhtbG5zPSJodHRwOi8vd3d3LnczLm9yZy8yMDAwL3N2ZyI+CjxyZWN0IHdpZHRoPSIzMDAiIGhlaWdodD0iMzAwIiBmaWxsPSIjMTExIi8+CjxwYXRoIGQ9Ik0xMDAgMTAwIEwyMDAgMTAwIEwxNTAgMjAwIFoiIGZpbGw9IndoaXRlIi8+Cjx0ZXh0IHg9IjE1MCIgeT0iMjUwIiBmaWxsPSJ3aGl0ZSIgdGV4dC1hbmNob3I9Im1pZGRsZSIgZm9udC1mYW1pbHk9IkFyaWFsIiBmb250LXNpemU9IjE2Ij5Gb3Jlc3QgRWNobyAjMDAyPC90ZXh0Pgo8L3N2Zz4K"
     moment_timestamp := "2024-07-26T22:15:00Z"
     rarity := "rare"
     attributes := [("location", "天川村"), ("genre", "Electronic"), ("time", "Night")]
     created_at := env.now 1 },
   { id := env.freshId 2
     title := "Unity Flow #003"
     description := "家族と音楽が一つになった特別な瞬間"
     image_base64 := "data:image/svg+xml;base64,PHN2ZyB3aWR0aD0iMzAwIiBoZWlnaHQ9IjMwMCIgdmlld0JveD0iMCAwIDMwMCAzMDAiIGZpbGw9Im5vbmUiIHhtbG5zPSJodHRwOi8vd3d3LnczLm9yZy8yMDAwL3N2ZyI+CjxyZWN0IHdpZHRoPSIzMDAiIGhlaWdodD0iMzAwIiBmaWxsPSIjMDAwIi8+CjxjaXJjbGUgY3g9IjEwMCIgY3k9IjEwMCIgcj0iMjAiIGZpbGw9IndoaXRlIi8+CjxjaXJjbGUgY3g9IjIwMCIgY3k9IjEwMCIgcj0iMjAiIGZpbGw9IndoaXRlIi8+CjxjaXJjbGUgY3g9IjEwMCIgY3k9IjIwMCIgcj0iMjAiIGZpbGw9IndoaXRlIi8+CjxjaXJjbGUgY3g9IjIwMCIgY3k9IjIwMCIgcj0iMjAiIGZpbGw9IndoaXRlIi8+Cjx0ZXh0IHg9IjE1MCIgeT0iMjcwIiBmaWxsPSJ3aGl0ZSIgdGV4dC1hbmNob3I9Im1pZGRsZSIgZm9udC1mYW1pbHk9IkFyaWFsIiBmb250LXNpemU9IjE2Ij5Vbml0eSBGbG93ICMwMDM8L3RleHQ+Cjwvc3ZnPgo="
     moment_timestamp := "2024-07-27T16:00:00Z"
     rarity := "common"
     attributes := [("location", "天川村"), ("genre", "Ambient"), ("time", "Afternoon")]
     created_at := env.now 2 }]

/-- `GET /api/nft-moments` (`get_nft_moments`): builds `mock_nfts` and
returns it; the handler body never references the datastore, so the store is
returned unchanged whatever it was. -/
def get_nft_moments (env : Env) (s : Store) : List NFTMoment × Store :=
  (mock_nfts env, s)

/-- Projection of an NFT moment record onto the fields that are NOT freshly
generated per call (everything except `id` and `created_at`). -/
def nftContent (m : NFTMoment) :
    String × String × String × String × String × List (String × String) :=
  (m.title, m.description, m.image_base64, m.moment_timestamp, m.rarity,
    m.attributes)

/-- A minimal festival document fixture: the store may hold arbitrary
festival documents, not only the seed payload. -/
def mkFest (i : String) : Festival :=
  { id := i, name := "Fest " ++ i, year := 2025, location := "", date := "",
    description := "", venue_info := [], sound_system := [],
    family_services := [], ticket_info := [], created_at := 0 }

/-- Concrete generation environment for witnesses. -/
def envW : Env := ⟨fun _ => "w-id", fun _ => 0⟩

/-- A second and a third concrete environment, drawing different uuids:
two real invocations draw distinct `uuid.uuid4()` values. -/
def envA : Env := ⟨fun _ => "aid", fun _ => 0⟩

def envB : Env := ⟨fun _ => "bid", fun _ => 0⟩

/-- Store fixture holding one festival document with id `"f1"`. -/
def storeW : Store := ⟨[mkFest "f1"], [], []⟩

/-- The empty store. -/
def emptyStore : Store := ⟨[], [], []⟩

/-- Reservation request fixture aimed at the `"f1"` festival. -/
def reqW : TicketReservationCreate :=
  ⟨"f1", "田中太郎", "tanaka.taro@example.com", "090-1234-5678", "early_bird", 2⟩

/-- Reservation request fixture whose festival id matches nothing. -/
def reqBad : TicketReservationCreate :=
  ⟨"invalid-festival-id", "田中太郎", "tanaka.taro@example.com",
   "090-1234-5678", "early_bird", 1⟩

/-- Store fixture with 1001 festival documents: 1000 copies of one document
followed by one more with a different id. -/
def festA : Festival := mkFest "a"

def festB : Festival := mkFest "b"

def bigStore : Store := ⟨List.replicate 1000 festA ++ [festB], [], []⟩

/-- Store fixture holding TWO festival documents named "Moment Festival"
(as a non-transactional seeding race can produce) plus one seed profile. -/
def dupStore : Store :=
  ⟨[sample_festival envA, sample_festival envB], [sample_dj envA], []⟩

/-- A store seeded with exactly one seed festival and one seed profile. -/
def seededStore : Store := ⟨[sample_festival envW], [sample_dj envW], []⟩

/-- Store holding just the seed festival, for the price-consistency witness. -/
def seedStoreW : Store := ⟨[sample_festival envW], [], []⟩

/-- Reservation request aimed at the seeded festival, ticket type "vip". -/
def reqSeed : TicketReservationCreate :=
  ⟨(sample_festival envW).id, "田中太郎", "tanaka.taro@example.com",
   "090-1234-5678", "vip", 3⟩

lemma ticket_prices_lookup_eq_specUnitPrice (t : String) :
    ((ticket_prices.lookup t).getD 18000) = specUnitPrice t := by
  by_cases h1 : t = "early_bird"
  · subst h1; rfl
  by_cases h2 : t = "regular"
  · subst h2; rfl
  by_cases h3 : t = "vip"
  · subst h3; rfl
  by_cases h4 : t = "family"
  · subst h4; rfl
  have e1 : (t == "early_bird") = false := by simp [h1]
  have e2 : (t == "regular") = false := by simp [h2]
  have e3 : (t == "vip") = false := by simp [h3]
  have e4 : (t == "family") = false := by simp [h4]
  simp [ticket_prices, specUnitPrice, List.lookup, e1, e2, e3, e4,
    h1, h2, h3, h4]

/-- Key fact about reservation creation used by several theorems: when some
festival in the store carries the requested `festival_id`, the call succeeds,
appends exactly the returned reservation, and the returned reservation echoes
the request with the server-computed price. -/
lemma create_ok_of_exists (env : Env) (s : Store)
    (rd : TicketReservationCreate)
    (h : ∃ f ∈ s.festivals, f.id = rd.festival_id) :
    ∃ r : TicketReservation,
      create_ticket_reservation env s rd =
        (Except.ok r,
          { s with ticket_reservations := s.ticket_reservations ++ [r] }) ∧
      r.total_price = specUnitPrice rd.ticket_type * rd.quantity ∧
      r.festival_id = rd.festival_id ∧ r.name = rd.name ∧ r.email = rd.email ∧
      r.phone = rd.phone ∧ r.ticket_type = rd.ticket_type ∧
      r.quantity = rd.quantity ∧ r.status = "pending" := by
  have hsome : (s.festivals.find? (fun f => f.id == rd.festival_id)).isSome := by
    rw [List.find?_isSome]
    obtain ⟨f, hf, hid⟩ := h
    exact ⟨f, hf, by simp [hid]⟩
  obtain ⟨f, hfind⟩ := Option.isSome_iff_exists.mp hsome
  refine ⟨{ id := env.freshId 0, festival_id := rd.festival_id, name := rd.name,
            email := rd.email, phone := rd.phone, ticket_type := rd.ticket_type,
            quantity := rd.quantity,
            total_price :=
              ((ticket_prices.lookup rd.ticket_type).getD 18000) * rd.quantity,
            created_at := env.now 0 },
          ?_, ?_, rfl, rfl, rfl, rfl, rfl, rfl, rfl⟩
  · unfold create_ticket_reservation
    rw [hfind]
  · exact congrArg (fun x => x * rd.quantity)
      (ticket_prices_lookup_eq_specUnitPrice rd.ticket_type)

/-- Companion fact: when no festival carries the requested `festival_id`, the
call fails with 404 "Festival not found" and returns the store unchanged. -/
lemma create_err_of_not_exists (env : Env) (s : Store)
    (rd : TicketReservationCreate)
    (h : ∀ f ∈ s.festivals, f.id ≠ rd.festival_id) :
    create_ticket_reservation env s rd =
      (Except.error ⟨404, "Festival not found"⟩, s) := by
  have hnone : s.festivals.find? (fun f => f.id == rd.festival_id) = none := by
    rw [List.find?_eq_none]
    intro f hf
    simpa using h f hf
  unfold create_ticket_reservation
  rw [hnone]

/-- C1: for every reservation creation request whose festival_id exists, the
returned and persisted total_price equals the fixed unit price of the
submitted ticket_type (early_bird 15000, regular 18000, vip 35000, family
40000; any other type 18000) multiplied by the submitted quantity; the price
is computed server-side (the request type has no price field). -/
theorem C1_total_price_is_unit_price_times_quantity (env : Env) (s : Store)
    (rd : TicketReservationCreate)
    (h : ∃ f ∈ s.festivals, f.id = rd.festival_id) :
    ∃ r : TicketReservation,
      create_ticket_reservation env s rd =
        (Except.ok r,
          { s with ticket_reservations := s.ticket_reservations ++ [r] }) ∧
      r.total_price = specUnitPrice rd.ticket_type * rd.quantity := by
  obtain ⟨r, h1, h2, _⟩ := create_ok_of_exists env s rd h
  exact ⟨r, h1, h2⟩

/-- Witness for C1 at a concrete input: store `storeW` holds festival
`"f1"`, the request asks for 2 early_bird tickets. -/
theorem C1_total_price_witness :
    ∃ r : TicketReservation,
      create_ticket_reservation envW storeW reqW =
        (Except.ok r,
          { storeW with
              ticket_reservations := storeW.ticket_reservations ++ [r] }) ∧
      r.total_price = specUnitPrice reqW.ticket_type * reqW.quantity :=
  C1_total_price_is_unit_price_times_quantity envW storeW reqW
    ⟨mkFest "f1", by simp [storeW], rfl⟩

/-- C2: a reservation creation request whose festival_id matches no festival
document fails with 404 "Festival not found" and leaves the store (in
particular the ticket_reservations collection) unchanged. -/
theorem C2_unknown_festival_rejected (env : Env) (s : Store)
    (rd : TicketReservationCreate)
    (h : ∀ f ∈ s.festivals, f.id ≠ rd.festival_id) :
    create_ticket_reservation env s rd =
      (Except.error ⟨404, "Festival not found"⟩, s) :=
  create_err_of_not_exists env s rd h

/-- Witness for C2 at a concrete input: request `reqBad` names a festival id
present nowhere in `storeW`. -/
theorem C2_unknown_festival_witness :
    create_ticket_reservation envW storeW reqBad =
      (Except.error ⟨404, "Festival not found"⟩, storeW) :=
  C2_unknown_festival_rejected envW storeW reqBad
    (by intro f hf; simp [storeW] at hf; subst hf; decide)

/-- C9: the reservation creation operation performs no validation on the
quantity: for every integer quantity q, including zero and negatives, a
request whose festival_id exists succeeds with total_price = unit price * q. -/
theorem C9_no_quantity_validation (env : Env) (s : Store)
    (rd : TicketReservationCreate) (q : Int)
    (h : ∃ f ∈ s.festivals, f.id = rd.festival_id) :
    ∃ r s',
      create_ticket_reservation env s { rd with quantity := q } =
        (Except.ok r, s') ∧
      r.quantity = q ∧
      r.total_price = specUnitPrice rd.ticket_type * q := by
  obtain ⟨r, h1, h2, _, _, _, _, _, hq, _⟩ :=
    create_ok_of_exists env s { rd with quantity := q } h
  exact ⟨r, _, h1, hq, h2⟩

/-- Witness for C9 at a concrete input with a NEGATIVE quantity: the call
succeeds and produces a negative total price. -/
theorem C9_negative_quantity_witness :
    ∃ r s',
      create_ticket_reservation envW storeW { reqW with quantity := -2 } =
        (Except.ok r, s') ∧
      r.quantity = -2 ∧
      r.total_price = specUnitPrice reqW.ticket_type * (-2) :=
  C9_no_quantity_validation envW storeW reqW (-2)
    ⟨mkFest "f1", by simp [storeW], rfl⟩

/-- C7: the get-festival-by-id operation fails with 404 "Festival not found"
exactly when no festival document carries the requested id, and otherwise
returns a festival document from the store whose id equals the parameter. -/
theorem C7_get_festival_found_iff (s : Store) (fid : String) :
    ((∀ f ∈ s.festivals, f.id ≠ fid) →
      get_festival s fid = (Except.error ⟨404, "Festival not found"⟩, s)) ∧
    ((∃ f ∈ s.festivals, f.id = fid) →
      ∃ f, f ∈ s.festivals ∧ f.id = fid ∧
        get_festival s fid = (Except.ok f, s)) := by
  constructor
  · intro h
    have hnone : s.festivals.find? (fun f => f.id == fid) = none := by
      rw [List.find?_eq_none]
      intro f hf
      simpa using h f hf
    unfold get_festival
    rw [hnone]
  · intro h
    have hsome : (s.festivals.find? (fun f => f.id == fid)).isSome := by
      rw [List.find?_isSome]
      obtain ⟨f, hf, hid⟩ := h
      exact ⟨f, hf, by simp [hid]⟩
    obtain ⟨f, hfind⟩ := Option.isSome_iff_exists.mp hsome
    refine ⟨f, List.mem_of_find?_eq_some hfind, ?_, ?_⟩
    · simpa using List.find?_some hfind
    · unfold get_festival
      rw [hfind]

/-- Witness for C7 at concrete inputs: in `storeW`, id `"f1"` is found and
returned, id `"zzz"` yields the 404. -/
theorem C7_get_festival_witness :
    (∃ f, f ∈ storeW.festivals ∧ f.id = "f1" ∧
      get_festival storeW "f1" = (Except.ok f, storeW)) ∧
    get_festival storeW "zzz" =
      (Except.error ⟨404, "Festival not found"⟩, storeW) :=
  ⟨(C7_get_festival_found_iff storeW "f1").2
      ⟨mkFest "f1", by simp [storeW], rfl⟩,
   (C7_get_festival_found_iff storeW "zzz").1
      (by intro f hf; simp [storeW] at hf; subst hf; decide)⟩

/-- C3 counterexample: the listing is `find().to_list(1000)`, which caps the
result at the first 1000 documents.  In a store with 1001 festival documents
the last one is present in the collection but absent from the response, so
"for every store state, every festival document appears in the response"
fails. -/
theorem C3_counterexample_1001_festivals :
    festB ∈ bigStore.festivals ∧ festB ∉ (get_festivals bigStore).1 := by
  constructor
  · show festB ∈ List.replicate 1000 festA ++ [festB]
    exact List.mem_append.mpr (Or.inr (List.mem_singleton.mpr rfl))
  · intro hmem
    have h1 : (get_festivals bigStore).1 = List.replicate 1000 festA := by
      show (List.replicate 1000 festA ++ [festB]).take 1000 = _
      have hlen : (List.replicate 1000 festA).length = 1000 := by
        rw [List.length_replicate]
      nth_rewrite 1 [← hlen]
      exact List.take_left _ _
    rw [h1] at hmem
    have h2 : festB.id = festA.id :=
      congrArg Festival.id (List.eq_of_mem_replicate hmem)
    exact absurd h2 (by decide)

/-- C3 (amended): the list-festivals operation returns the first 1000
festival documents of the collection; whenever the collection holds at most
1000 documents (in particular when it is empty) every festival document
appears in the response, which is then the whole collection as a list. -/
theorem C3_amended_first_1000 (s : Store) :
    (get_festivals s).1 = s.festivals.take 1000 ∧
    (s.festivals.length ≤ 1000 → (get_festivals s).1 = s.festivals) := by
  refine ⟨rfl, fun h => ?_⟩
  show s.festivals.take 1000 = s.festivals
  exact List.take_eq_self_iff s.festivals |>.mpr h

/-- Witness for the amended C3 at a concrete input: `storeW` holds one
festival, well under the cap, and the response is the whole collection. -/
theorem C3_amended_witness :
    storeW.festivals.length ≤ 1000 ∧ (get_festivals storeW).1 = storeW.festivals :=
  ⟨by simp [storeW], (C3_amended_first_1000 storeW).2 (by simp [storeW])⟩

/-- C4 counterexample: `NFTMoment` draws a fresh `uuid.uuid4()` id and a
fresh `utcnow` timestamp on every construction, so two invocations of the
list-NFT-moments operation that draw different uuids return lists that are
NOT identical in every field (the `id` fields differ). -/
theorem C4_counterexample_fresh_ids :
    (get_nft_moments envA emptyStore).1 ≠ (get_nft_moments envB emptyStore).1 := by
  decide

/-- C4 (amended): the list-NFT-moments operation is deterministic in every
field except the per-construction generated `id` and `created_at`: for any
two invocations, against any store states and any draws of the generators,
the returned lists agree on title, description, image_base64,
moment_timestamp, rarity and attributes; and the operation neither reads
from nor writes to the datastore (the result ignores the store and the
store is returned unchanged). -/
theorem C4_amended_content_deterministic (e1 e2 : Env) (s1 s2 : Store) :
    (get_nft_moments e1 s1).1.map nftContent =
      (get_nft_moments e2 s2).1.map nftContent ∧
    (get_nft_moments e1 s1).2 = s1 :=
  ⟨rfl, rfl⟩

/-- C5 counterexample: the claim quantifies over every store already
containing a festival named "Moment Festival" and a profile "DJ Senoh".  On
`dupStore`, which holds TWO festival documents named "Moment Festival",
seeding inserts nothing (it is a no-op), so the store is left with two such
documents, not exactly one. -/
theorem C5_counterexample_duplicate_seed :
    startup_event envW dupStore = dupStore ∧
    ((startup_event envW dupStore).festivals.filter
        (fun f => f.name == "Moment Festival")).length = 2 :=
  ⟨rfl, rfl⟩

/-- C5 (amended): running the seeding step any number of times against a
store that already contains a festival named "Moment Festival" and a profile
with stage name "DJ Senoh" inserts nothing and leaves the store exactly as
it was; in particular a store holding exactly one such festival (the seeded
one, year 2025) and exactly one such profile still holds exactly one of
each. -/
theorem C5_amended_seeding_noop (env : Env) (s : Store) (n : Nat)
    (hf : ∃ f ∈ s.festivals, f.name = "Moment Festival")
    (hd : ∃ d ∈ s.dj_profiles, d.stage_name = "DJ Senoh") :
    (startup_event env)^[n] s = s := by
  have hfs : (s.festivals.find? (fun f => f.name == "Moment Festival")).isSome := by
    rw [List.find?_isSome]
    obtain ⟨f, hf', hn⟩ := hf
    exact ⟨f, hf', by simp [hn]⟩
  obtain ⟨f, hfind⟩ := Option.isSome_iff_exists.mp hfs
  have hds : (s.dj_profiles.find? (fun d => d.stage_name == "DJ Senoh")).isSome := by
    rw [List.find?_isSome]
    obtain ⟨d, hd', hn⟩ := hd
    exact ⟨d, hd', by simp [hn]⟩
  obtain ⟨d, hdfind⟩ := Option.isSome_iff_exists.mp hds
  have e1 : seed_festival_step env s = s := by
    unfold seed_festival_step
    rw [hfind]
  have e2 : seed_dj_step env s = s := by
    unfold seed_dj_step
    rw [hdfind]
  have h1 : startup_event env s = s := by
    unfold startup_event
    rw [e1, e2]
  exact Function.iterate_fixed h1 n

/-- Witness for the amended C5 at a concrete input: five repetitions of the
seeding step on the singly-seeded `seededStore` leave it untouched. -/
theorem C5_amended_witness :
    (startup_event envW)^[5] seededStore = seededStore :=
  C5_amended_seeding_noop envW seededStore 5
    ⟨sample_festival envW, by simp [seededStore], rfl⟩
    ⟨sample_dj envW, by simp [seededStore], rfl⟩

/-- C6: on every call (any generator draws, any store) the list-NFT-moments
operation returns exactly 3 records titled "Sunrise Moment #001", "Forest
Echo #002", "Unity Flow #003"; every record's rarity lies in
{legendary, rare, common} and every image_base64 starts with
"data:image/svg+xml;base64,". -/
theorem C6_nft_listing_shape (env : Env) (s : Store) :
    (get_nft_moments env s).1.length = 3 ∧
    (get_nft_moments env s).1.map NFTMoment.title =
      ["Sunrise Moment #001", "Forest Echo #002", "Unity Flow #003"] ∧
    ∀ m ∈ (get_nft_moments env s).1,
      (m.rarity = "legendary" ∨ m.rarity = "rare" ∨ m.rarity = "common") ∧
      ∃ rest, m.image_base64 = "data:image/svg+xml;base64," ++ rest := by
  refine ⟨rfl, rfl, ?_⟩
  intro m hm
  simp only [get_nft_moments, mock_nfts, List.mem_cons, List.not_mem_nil,
    or_false] at hm
  rcases hm with h | h | h <;> subst h
  · exact ⟨Or.inl rfl, "PHN2ZyB3aWR0aD0iMzAwIiBoZWlnaHQ9IjMwMCIgdmlld0JveD0iMCAwIDMwMCAzMDAiIGZpbGw9Im5vbmUiIHhtbG5zPSJodHRwOi8vd3d3LnczLm9yZy8yMDAwL3N2ZyI+CjxyZWN0IHdpZHRoPSIzMDAiIGhlaWdodD0iMzAwIiBmaWxsPSJibGFjayIvPgo8Y2lyY2xlIGN4PSIxNTAiIGN5PSIxNTAiIHI9IjUwIiBmaWxsPSJ3aGl0ZSIvPgo8dGV4dCB4PSIxNTAiIHk9IjIyMCIgZmlsbD0id2hpdGUiIHRleHQtYW5jaG9yPSJtaWRkbGUiIGZvbnQtZmFtaWx5PSJBcmlhbCIgZm9udC1zaXplPSIxOCI+U3VucmlzZSAjMDAxPC90ZXh0Pgo8L3N2Zz4K", rfl⟩
  · exact ⟨Or.inr (Or.inl rfl), "PHN2ZyB3aWR0aD0iMzAwIiBoZWlnaHQ9IjMwMCIgdmlld0JveD0iMCAwIDMwMCAzMDAiIGZpbGw9Im5vbmUiIHhtbG5zPSJodHRwOi8vd3d3LnczLm9yZy8yMDAwL3N2ZyI+CjxyZWN0IHdpZHRoPSIzMDAiIGhlaWdodD0iMzAwIiBmaWxsPSIjMTExIi8+CjxwYXRoIGQ9Ik0xMDAgMTAwIEwyMDAgMTAwIEwxNTAgMjAwIFoiIGZpbGw9IndoaXRlIi8+Cjx0ZXh0IHg9IjE1MCIgeT0iMjUwIiBmaWxsPSJ3aGl0ZSIgdGV4dC1hbmNob3I9Im1pZGRsZSIgZm9udC1mYW1pbHk9IkFyaWFsIiBmb250LXNpemU9IjE2Ij5Gb3Jlc3QgRWNobyAjMDAyPC90ZXh0Pgo8L3N2Zz4K", rfl⟩
  · exact ⟨Or.inr (Or.inr rfl), "PHN2ZyB3aWR0aD0iMzAwIiBoZWlnaHQ9IjMwMCIgdmlld0JveD0iMCAwIDMwMCAzMDAiIGZpbGw9Im5vbmUiIHhtbG5zPSJodHRwOi8vd3d3LnczLm9yZy8yMDAwL3N2ZyI+CjxyZWN0IHdpZHRoPSIzMDAiIGhlaWdodD0iMzAwIiBmaWxsPSIjMDAwIi8+CjxjaXJjbGUgY3g9IjEwMCIgY3k9IjEwMCIgcj0iMjAiIGZpbGw9IndoaXRlIi8+CjxjaXJjbGUgY3g9IjIwMCIgY3k9IjEwMCIgcj0iMjAiIGZpbGw9IndoaXRlIi8+CjxjaXJjbGUgY3g9IjEwMCIgY3k9IjIwMCIgcj0iMjAiIGZpbGw9IndoaXRlIi8+CjxjaXJjbGUgY3g9IjIwMCIgY3k9IjIwMCIgcj0iMjAiIGZpbGw9IndoaXRlIi8+Cjx0ZXh0IHg9IjE1MCIgeT0iMjcwIiBmaWxsPSJ3aGl0ZSIgdGV4dC1hbmNob3I9Im1pZGRsZSIgZm9udC1mYW1pbHk9IkFyaWFsIiBmb250LXNpemU9IjE2Ij5Vbml0eSBGbG93ICMwMDM8L3RleHQ+Cjwvc3ZnPgo=", rfl⟩

/-- C8: no operation deletes or mutates an existing document.  The four read
operations return the store unchanged; reservation creation leaves the
festivals and DJ-profile collections untouched and either (on success)
appends exactly one new document to ticket_reservations or (on failure)
leaves it unchanged too. -/
theorem C8_frame_no_mutation (env : Env) (s : Store) (fid : String)
    (rd : TicketReservationCreate) :
    (get_festivals s).2 = s ∧
    (get_festival s fid).2 = s ∧
    (get_dj_profile s).2 = s ∧
    (get_nft_moments env s).2 = s ∧
    ((create_ticket_reservation env s rd).2.festivals = s.festivals ∧
     (create_ticket_reservation env s rd).2.dj_profiles = s.dj_profiles ∧
     ((∃ r, (create_ticket_reservation env s rd).1 = Except.ok r ∧
         (create_ticket_reservation env s rd).2.ticket_reservations =
           s.ticket_reservations ++ [r]) ∨
      ((∃ e, (create_ticket_reservation env s rd).1 = Except.error e) ∧
        (create_ticket_reservation env s rd).2.ticket_reservations =
          s.ticket_reservations))) := by
  refine ⟨rfl, ?_, ?_, rfl, ?_⟩
  · unfold get_festival
    cases s.festivals.find? (fun f => f.id == fid) <;> rfl
  · unfold get_dj_profile
    cases s.dj_profiles.find? (fun d => d.stage_name == "DJ Senoh") <;> rfl
  · unfold create_ticket_reservation
    cases s.festivals.find? (fun f => f.id == rd.festival_id)
    · exact ⟨rfl, rfl, Or.inr ⟨⟨_, rfl⟩, rfl⟩⟩
    · exact ⟨rfl, rfl, Or.inl ⟨_, rfl, rfl⟩⟩

/-- C10: the seeded festival's advertised `ticket_info` prices agree with the
price table of the reservation operation: for each of the four ticket types,
`ticket_info[T].price` in the seed payload equals the unit price the
reservation operation uses for T, and a reservation of type T for the seeded
festival totals that advertised price times the quantity. -/
theorem C10_seed_prices_consistent (env env' : Env) (s : Store)
    (rd : TicketReservationCreate) (t : String) (p : Int)
    (hmem : (t, p) ∈ [("early_bird", (15000 : Int)), ("regular", 18000),
                      ("vip", 35000), ("family", 40000)])
    (hs : sample_festival env ∈ s.festivals)
    (hid : rd.festival_id = (sample_festival env).id)
    (ht : rd.ticket_type = t) :
    ∃ tier : TicketTier,
      (sample_festival env).ticket_info.lookup t = some tier ∧
      tier.price = p ∧
      ((ticket_prices.lookup t).getD 18000) = tier.price ∧
      ∃ r s', create_ticket_reservation env' s rd = (Except.ok r, s') ∧
        r.total_price = tier.price * rd.quantity := by
  obtain ⟨r, hr, hp, _⟩ :=
    create_ok_of_exists env' s rd ⟨sample_festival env, hs, hid.symm⟩
  simp only [List.mem_cons, List.not_mem_nil, or_false, Prod.mk.injEq] at hmem
  rcases hmem with ⟨h1, h2⟩ | ⟨h1, h2⟩ | ⟨h1, h2⟩ | ⟨h1, h2⟩ <;>
      subst h1 <;> subst h2
  · exact ⟨⟨15000, "早割チケット"⟩, rfl, rfl, rfl, r, _, hr,
      by rw [hp, ht]; simp [specUnitPrice]⟩
  · exact ⟨⟨18000, "一般チケット"⟩, rfl, rfl, rfl, r, _, hr,
      by rw [hp, ht]; simp [specUnitPrice]⟩
  · exact ⟨⟨35000, "VIP体験チケット"⟩, rfl, rfl, rfl, r, _, hr,
      by rw [hp, ht]; simp [specUnitPrice]⟩
  · exact ⟨⟨40000, "ファミリーパック(大人2名+子供2名)"⟩, rfl, rfl, rfl, r, _, hr,
      by rw [hp, ht]; simp [specUnitPrice]⟩

/-- Witness for C10 at a concrete input: the "vip" tier of the seeded
festival is advertised at 35000, and a 3-ticket vip reservation for it
totals 35000 * 3. -/
theorem C10_seed_prices_witness :
    ∃ tier : TicketTier,
      (sample_festival envW).ticket_info.lookup "vip" = some tier ∧
      tier.price = 35000 ∧
      ((ticket_prices.lookup "vip").getD 18000) = tier.price ∧
      ∃ r s', create_ticket_reservation envW seedStoreW reqSeed =
          (Except.ok r, s') ∧
        r.total_price = tier.price * reqSeed.quantity :=
  C10_seed_prices_consistent envW envW seedStoreW reqSeed "vip" 35000
    (by decide) (by simp [seedStoreW]) rfl rfl

/-- Witness for C6 at a concrete input: the first returned record of a
concrete invocation satisfies the rarity and image constraints. -/
theorem C6_nft_listing_witness :
    (get_nft_moments envW emptyStore).1.length = 3 ∧
    ∃ m, m ∈ (get_nft_moments envW emptyStore).1 ∧
      (m.rarity = "legendary" ∨ m.rarity = "rare" ∨ m.rarity = "common") ∧
      ∃ rest, m.image_base64 = "data:image/svg+xml;base64," ++ rest := by
  have hm : (mock_nfts envW).get ⟨0, by simp [mock_nfts]⟩ ∈
      (get_nft_moments envW emptyStore).1 := List.get_mem _ _ _
  exact ⟨(C6_nft_listing_shape envW emptyStore).1,
    ⟨_, hm, (C6_nft_listing_shape envW emptyStore).2.2 _ hm⟩⟩
